import Mathlib

/-!
Verification of the 4-up cut-and-stack PDF imposition engine
(`src/app.py`, function `create_4up_cut_stack_pdf`) against its
natural-language specification.

The source file implements the single-sided mode (Mode A).  The
double-sided modes (B and C) are described only in the specification;
they are modelled from the spec's words where a claim needs them, and
each such definition is marked `Modelled from the spec:`.

Geometry is embedded over `ℚ` (the Python code computes over IEEE
floats; the spec's guarantees are stated for exact arithmetic).
-/

/-- A rectangle given by its four coordinates, origin at the bottom
left, x to the right, y upward — the coordinate convention of the
source (`fitz.Rect(x0, y0, x1, y1)` as used in `app.py`). -/
structure Rect where
  x0 : ℚ
  y0 : ℚ
  x1 : ℚ
  y1 : ℚ
  deriving DecidableEq, Repr

/-- Width of a rectangle (`rect.width` in the source; for the proper
rectangles manipulated here this is `x1 - x0`). -/
def Rect.width (r : Rect) : ℚ := r.x1 - r.x0

/-- Height of a rectangle (`rect.height` in the source). -/
def Rect.height (r : Rect) : ℚ := r.y1 - r.y0

/-- The side of a physical sheet.  The single-sided mode uses only
`front`. -/
inductive Side where
  | front : Side
  | back : Side
  deriving DecidableEq, Repr

/-- The three layout variants of the specification.  `modeA` is the one
implemented in `src/app.py`; `modeB` and `modeC` are the double-sided
variants, present only in the specification. -/
inductive Mode where
  | modeA : Mode
  | modeB : Mode
  | modeC : Mode
  deriving DecidableEq, Repr

/-! ## Mode A planner, embedded from `src/app.py` -/

/-- `total_sheets = math.ceil(num_pages / 4)` (app.py line 25),
as ceiling division on `ℕ`. -/
def total_sheets (num_pages : ℕ) : ℕ := (num_pages + 3) / 4

/-- The slot assignment of the Mode A loop (app.py lines 66-69):
`page_index = sheet + q * total_sheets`, drawn only when
`page_index < num_pages`, the slot left empty otherwise. -/
def slotA (num_pages sheet q : ℕ) : Option ℕ :=
  if sheet + q * total_sheets num_pages < num_pages then
    some (sheet + q * total_sheets num_pages)
  else
    none

/-- The whole Mode A plan, one list entry per output sheet
(app.py lines 61-69): sheets `0 .. total_sheets - 1`, each holding the
four quadrant slots `q = 0 .. 3`. -/
def planA (num_pages : ℕ) : List (List (Option ℕ)) :=
  (List.range (total_sheets num_pages)).map fun sheet =>
    (List.range 4).map fun q => slotA num_pages sheet q

/-! ## Modes B and C, modelled from the spec -/

/-- Modelled from the spec: `effective_pages = num_pages; if odd,
effective_pages += 1` (spec section 4.2, Mode B; the code for the
double-sided scripts is not in `src/`). -/
def effective_pages (num_pages : ℕ) : ℕ :=
  if num_pages % 2 = 1 then num_pages + 1 else num_pages

/-- Modelled from the spec: `sheets_total = ceil(effective_pages / 8)`
for the double-sided modes. -/
def sheets_totalB (num_pages : ℕ) : ℕ := (effective_pages num_pages + 7) / 8

/-- Modelled from the spec: `gap = 2*sheets_total - 1` (spec section
4.2, Mode B). -/
def gapB (num_pages : ℕ) : ℕ := 2 * sheets_totalB num_pages - 1

/-- Modelled from the spec: Mode B slot assignment.  One-based
mini-page numbers `front_base = 2*j + 1`, `back_base = 2*j + 2`,
quadrant `q` holds number `base + q*gap`, bound (zero-based) when the
number does not exceed `num_pages`. -/
def slotB (num_pages j : ℕ) (side : Side) (q : ℕ) : Option ℕ :=
  let base := match side with
    | Side.front => 2 * j + 1
    | Side.back => 2 * j + 2
  let number := base + q * gapB num_pages
  if number ≤ num_pages then some (number - 1) else none

/-- Modelled from the spec: Mode C slot assignment.  Front side as in
Mode B; the back side swaps left/right within each row:
`back_numbers_in_order = [back_base+gap, back_base, back_base+3*gap,
back_base+2*gap]`. -/
def slotC (num_pages j : ℕ) (side : Side) (q : ℕ) : Option ℕ :=
  match side with
  | Side.front => slotB num_pages j Side.front q
  | Side.back =>
    let base := 2 * j + 2
    let g := gapB num_pages
    match [base + g, base, base + 3 * g, base + 2 * g].get? q with
    | some number => if number ≤ num_pages then some (number - 1) else none
    | none => none

/-- The mode-indexed slot table: Mode A from the source (front side
only, the back side of a single-sided plan is empty), Modes B and C
modelled from the spec. -/
def slot (m : Mode) (num_pages j : ℕ) (side : Side) (q : ℕ) : Option ℕ :=
  match m with
  | Mode.modeA =>
    match side with
    | Side.front => slotA num_pages j q
    | Side.back => none
  | Mode.modeB => slotB num_pages j side q
  | Mode.modeC => slotC num_pages j side q

/-- Number of sheets produced by each mode. -/
def sheets_total_of (m : Mode) (num_pages : ℕ) : ℕ :=
  match m with
  | Mode.modeA => total_sheets num_pages
  | Mode.modeB => sheets_totalB num_pages
  | Mode.modeC => sheets_totalB num_pages

/-! ## Quadrant geometry engine, embedded from `src/app.py` -/

/-- `A4_WIDTH = 595.0` (app.py line 16). -/
def A4_WIDTH : ℚ := 595

/-- `A4_HEIGHT = 842.0` (app.py line 17). -/
def A4_HEIGHT : ℚ := 842

/-- `margin = 10` (app.py line 18). -/
def margin : ℚ := 10

/-- The four target quadrant rectangles on an A4 sheet, in the fixed
order [top-left, top-right, bottom-left, bottom-right]
(app.py lines 37-58). -/
def quadrant_rects : List Rect :=
  [ Rect.mk margin (A4_HEIGHT / 2 + margin) (A4_WIDTH / 2 - margin) (A4_HEIGHT - margin),
    Rect.mk (A4_WIDTH / 2 + margin) (A4_HEIGHT / 2 + margin) (A4_WIDTH - margin) (A4_HEIGHT - margin),
    Rect.mk margin margin (A4_WIDTH / 2 - margin) (A4_HEIGHT / 2 - margin),
    Rect.mk (A4_WIDTH / 2 + margin) margin (A4_WIDTH - margin) (A4_HEIGHT / 2 - margin) ]

/-- Quadrant rectangle for quadrant index `q` (the loop accesses
`quadrant_rects[q]` for `q` in `0..3`, app.py line 77; out-of-range
indices, which the loop never produces, default to the degenerate
origin rectangle). -/
def quadRect (q : ℕ) : Rect := quadrant_rects.getD q (Rect.mk 0 0 0 0)

/-- The target rectangle used on sheet `sheet` for quadrant `q`.  The
source indexes the one `quadrant_rects` list (built once, before the
sheet loop) with `q` alone, so the sheet index is not consulted. -/
def target_rect_of (sheet q : ℕ) : Rect :=
  let _ := sheet
  quadRect q

/-- The quadrant-rectangle formulas of the specification (spec section
4.1), written with `half_w` and `half_h` as the spec does.  Second
definition, from the spec's words, for comparison with the source's
`quadrant_rects`. -/
def spec_quadrant_rects (sheet_width sheet_height m : ℚ) : List Rect :=
  let half_w := sheet_width / 2
  let half_h := sheet_height / 2
  [ Rect.mk m (half_h + m) (half_w - m) (sheet_height - m),
    Rect.mk (half_w + m) (half_h + m) (sheet_width - m) (sheet_height - m),
    Rect.mk m m (half_w - m) (half_h - m),
    Rect.mk (half_w + m) m (sheet_width - m) (half_h - m) ]

/-- The scaled, centered destination rectangle for a source page of
size `src_width x src_height` inside the target quadrant `target`
(app.py lines 81-88): `scale = min(target.width/src_width,
target.height/src_height)`, then the scaled page is centered in the
target. -/
def fit_centered (src_width src_height : ℚ) (target : Rect) : Rect :=
  let scale := min (target.width / src_width) (target.height / src_height)
  let new_width := src_width * scale
  let new_height := src_height * scale
  let new_x0 := target.x0 + (target.width - new_width) / 2
  let new_y0 := target.y0 + (target.height - new_height) / 2
  Rect.mk new_x0 new_y0 (new_x0 + new_width) (new_y0 + new_height)

/-- `r` lies inside `t` (all four coordinates inclusive-bounded). -/
def Rect.SubRect (r t : Rect) : Prop :=
  t.x0 ≤ r.x0 ∧ t.y0 ≤ r.y0 ∧ r.x1 ≤ t.x1 ∧ r.y1 ≤ t.y1

/-- Two rectangles do not overlap: they are separated on the x axis or
on the y axis. -/
def Rect.Disjoint (a b : Rect) : Prop :=
  a.x1 ≤ b.x0 ∨ b.x1 ≤ a.x0 ∨ a.y1 ≤ b.y0 ∨ b.y1 ≤ a.y0

/-! ## Error-signalling embeddings -/

/-- The abstract error kinds of the specification (section 7). -/
inductive ErrorKind where
  | invalidInput : ErrorKind
  | invalidConfiguration : ErrorKind
  | invalidSourcePage : ErrorKind
  deriving DecidableEq, Repr

/-- The concrete failure that the source can raise while fitting a
page: Python float division by zero (`scale = min(target.width /
src_width, ...)`, app.py line 81) raises `ZeroDivisionError` when a
source dimension is zero. -/
inductive RenderError where
  | zeroDivision : RenderError
  deriving DecidableEq, Repr

/-- The per-slot fitting step of the source with its failure channel:
when a source dimension is zero, Python's float division at app.py
line 81 raises `ZeroDivisionError` (uncaught, so it propagates to the
caller); otherwise the scaled centered rectangle is produced and
drawn. -/
def render_fit (src_width src_height : ℚ) (target : Rect) : Except RenderError Rect :=
  if src_width = 0 ∨ src_height = 0 then
    Except.error RenderError.zeroDivision
  else
    Except.ok (fit_centered src_width src_height target)

/-- The planning stage of `create_4up_cut_stack_pdf` with an explicit
(never used) failure channel: the source performs no page-count
validation (app.py lines 21-28 go straight from `page_count` to
`total_sheets` and the sheet loop), so planning always succeeds. -/
def code_plan (num_pages : ℕ) : Except ErrorKind (List (List (Option ℕ))) :=
  Except.ok (planA num_pages)

/-- The planner the specification's failure semantics describe
(section 4.2: `num_pages <= 0` is `InvalidInput`, fail fast, no sheets
produced).  Second definition, from the spec's words, for comparison
with `code_plan`. -/
def spec_plan (num_pages : ℕ) : Except ErrorKind (List (List (Option ℕ))) :=
  if num_pages = 0 then Except.error ErrorKind.invalidInput
  else Except.ok (planA num_pages)

instance (a b : Rect) : Decidable (a.SubRect b) := by
  unfold Rect.SubRect; infer_instance

instance (a b : Rect) : Decidable (a.Disjoint b) := by
  unfold Rect.Disjoint; infer_instance

/-! ## Ceiling-division lemmas -/

/-- `(n + 3) / 4` is the ceiling of `n / 4`. -/
lemma nat_ceil_div_four (n : ℕ) : ((n + 3) / 4 : ℕ) = ⌈(n : ℚ) / 4⌉₊ := by
  rcases Nat.eq_zero_or_pos n with hn | hn
  · subst hn; norm_num
  · have hk : ((n + 3) / 4 : ℕ) ≠ 0 := by omega
    rw [eq_comm, Nat.ceil_eq_iff hk]
    have h1 : n ≤ 4 * ((n + 3) / 4) := by omega
    have h2 : 4 * ((n + 3) / 4 - 1) < n := by omega
    constructor
    · rw [lt_div_iff₀ (by norm_num : (0:ℚ) < 4)]
      have hc : (((n + 3) / 4 - 1 : ℕ) : ℚ) * 4 = ((4 * ((n + 3) / 4 - 1) : ℕ) : ℚ) := by
        push_cast; ring
      rw [hc]
      exact_mod_cast h2
    · rw [div_le_iff₀ (by norm_num : (0:ℚ) < 4)]
      have hc : (((n + 3) / 4 : ℕ) : ℚ) * 4 = ((4 * ((n + 3) / 4) : ℕ) : ℚ) := by
        push_cast; ring
      rw [hc]
      exact_mod_cast h1

/-- `(n + 7) / 8` is the ceiling of `n / 8`. -/
lemma nat_ceil_div_eight (n : ℕ) : ((n + 7) / 8 : ℕ) = ⌈(n : ℚ) / 8⌉₊ := by
  rcases Nat.eq_zero_or_pos n with hn | hn
  · subst hn; norm_num
  · have hk : ((n + 7) / 8 : ℕ) ≠ 0 := by omega
    rw [eq_comm, Nat.ceil_eq_iff hk]
    have h1 : n ≤ 8 * ((n + 7) / 8) := by omega
    have h2 : 8 * ((n + 7) / 8 - 1) < n := by omega
    constructor
    · rw [lt_div_iff₀ (by norm_num : (0:ℚ) < 8)]
      have hc : (((n + 7) / 8 - 1 : ℕ) : ℚ) * 8 = ((8 * ((n + 7) / 8 - 1) : ℕ) : ℚ) := by
        push_cast; ring
      rw [hc]
      exact_mod_cast h2
    · rw [div_le_iff₀ (by norm_num : (0:ℚ) < 8)]
      have hc : (((n + 7) / 8 : ℕ) : ℚ) * 8 = ((8 * ((n + 7) / 8) : ℕ) : ℚ) := by
        push_cast; ring
      rw [hc]
      exact_mod_cast h1

/-! ## Geometry helper lemmas -/

/-- The scaled width does not exceed the target width, and likewise for
the height; both are positive when everything in sight is. -/
lemma fit_scaled_dims (sw sh : ℚ) (t : Rect) (hsw : 0 < sw) (hsh : 0 < sh)
    (hW : 0 < t.width) (hH : 0 < t.height) :
    0 < sw * min (t.width / sw) (t.height / sh) ∧
      0 < sh * min (t.width / sw) (t.height / sh) ∧
      sw * min (t.width / sw) (t.height / sh) ≤ t.width ∧
      sh * min (t.width / sw) (t.height / sh) ≤ t.height := by
  have hsc : 0 < min (t.width / sw) (t.height / sh) :=
    lt_min (div_pos hW hsw) (div_pos hH hsh)
  refine ⟨mul_pos hsw hsc, mul_pos hsh hsc, ?_, ?_⟩
  · calc sw * min (t.width / sw) (t.height / sh)
        ≤ sw * (t.width / sw) :=
          mul_le_mul_of_nonneg_left (min_le_left _ _) hsw.le
      _ = t.width := by field_simp
  · calc sh * min (t.width / sw) (t.height / sh)
        ≤ sh * (t.height / sh) :=
          mul_le_mul_of_nonneg_left (min_le_right _ _) hsh.le
      _ = t.height := by field_simp

/-- The fitted rectangle lies inside its target quadrant. -/
lemma fit_centered_subRect (sw sh : ℚ) (t : Rect) (hsw : 0 < sw) (hsh : 0 < sh)
    (hW : 0 < t.width) (hH : 0 < t.height) :
    (fit_centered sw sh t).SubRect t := by
  obtain ⟨h1, h2, h3, h4⟩ := fit_scaled_dims sw sh t hsw hsh hW hH
  simp only [fit_centered, Rect.SubRect, Rect.width, Rect.height] at *
  refine ⟨by linarith, by linarith, by linarith, by linarith⟩

/-- Containment transports disjointness: rectangles inside disjoint
targets are disjoint. -/
lemma subRect_disjoint {a b t u : Rect} (ha : a.SubRect t) (hb : b.SubRect u)
    (h : t.Disjoint u) : a.Disjoint b := by
  obtain ⟨ha1, ha2, ha3, ha4⟩ := ha
  obtain ⟨hb1, hb2, hb3, hb4⟩ := hb
  rcases h with h | h | h | h
  · exact Or.inl (by linarith)
  · exact Or.inr (Or.inl (by linarith))
  · exact Or.inr (Or.inr (Or.inl (by linarith)))
  · exact Or.inr (Or.inr (Or.inr (by linarith)))

/-- Distinct quadrants of the fixed A4 configuration are disjoint. -/
lemma quadRect_disjoint {q q' : ℕ} (hq : q < 4) (hq' : q' < 4) (hne : q ≠ q') :
    (quadRect q).Disjoint (quadRect q') := by
  interval_cases q <;> interval_cases q' <;>
    first
      | exact absurd rfl hne
      | norm_num [quadRect, quadrant_rects, Rect.Disjoint, A4_WIDTH,
          A4_HEIGHT, margin]

/-- Each quadrant of the fixed A4 configuration has positive width and
height. -/
lemma quadRect_pos {q : ℕ} (hq : q < 4) :
    0 < (quadRect q).width ∧ 0 < (quadRect q).height := by
  interval_cases q <;>
    norm_num [quadRect, quadrant_rects, Rect.width, Rect.height, A4_WIDTH,
      A4_HEIGHT, margin]

/-! ## Claim theorems: geometry -/

/-- C4: for every source page with positive width and height and every
target rectangle with positive width and height, the rectangle
returned by the fit_centered computation is fully contained in the
target rectangle: its x0 and y0 are at least the target's, and its x1
and y1 are at most the target's. -/
theorem fit_centered_contained (src_width src_height : ℚ) (target : Rect)
    (hsw : 0 < src_width) (hsh : 0 < src_height)
    (hW : 0 < target.width) (hH : 0 < target.height) :
    target.x0 ≤ (fit_centered src_width src_height target).x0 ∧
      target.y0 ≤ (fit_centered src_width src_height target).y0 ∧
      (fit_centered src_width src_height target).x1 ≤ target.x1 ∧
      (fit_centered src_width src_height target).y1 ≤ target.y1 :=
  fit_centered_subRect src_width src_height target hsw hsh hW hH

/-- Witness for C4: spec scenario 5, a 300 x 600 source page fitted
into the top-left quadrant. -/
theorem fit_centered_contained_witness :
    (0 : ℚ) < 300 ∧ (0 : ℚ) < 600 ∧
      0 < (quadRect 0).width ∧ 0 < (quadRect 0).height ∧
      ((quadRect 0).x0 ≤ (fit_centered 300 600 (quadRect 0)).x0 ∧
        (quadRect 0).y0 ≤ (fit_centered 300 600 (quadRect 0)).y0 ∧
        (fit_centered 300 600 (quadRect 0)).x1 ≤ (quadRect 0).x1 ∧
        (fit_centered 300 600 (quadRect 0)).y1 ≤ (quadRect 0).y1) :=
  ⟨by norm_num, by norm_num, (quadRect_pos (by norm_num)).1,
    (quadRect_pos (by norm_num)).2,
    fit_centered_contained 300 600 (quadRect 0) (by norm_num) (by norm_num)
      (quadRect_pos (by norm_num)).1 (quadRect_pos (by norm_num)).2⟩

/-- C5: the fit_centered output rectangle's width-to-height ratio
equals the source page's width-to-height ratio, exactly, over exact
arithmetic. -/
theorem fit_centered_aspect_ratio (src_width src_height : ℚ) (target : Rect)
    (hsw : 0 < src_width) (hsh : 0 < src_height)
    (hW : 0 < target.width) (hH : 0 < target.height) :
    (fit_centered src_width src_height target).width /
        (fit_centered src_width src_height target).height =
      src_width / src_height := by
  have hsc : 0 < min (target.width / src_width) (target.height / src_height) :=
    lt_min (div_pos hW hsw) (div_pos hH hsh)
  have hw : (fit_centered src_width src_height target).width =
      src_width * min (target.width / src_width) (target.height / src_height) := by
    simp only [fit_centered, Rect.width, Rect.height]
    ring
  have hh : (fit_centered src_width src_height target).height =
      src_height * min (target.width / src_width) (target.height / src_height) := by
    simp only [fit_centered, Rect.width, Rect.height]
    ring
  rw [hw, hh, mul_comm src_width, mul_comm src_height,
    mul_div_mul_left src_width src_height hsc.ne']

/-- Witness for C5: the 300 x 600 source page of spec scenario 5. -/
theorem fit_centered_aspect_ratio_witness :
    (0 : ℚ) < 300 ∧ (0 : ℚ) < 600 ∧
      0 < (quadRect 0).width ∧ 0 < (quadRect 0).height ∧
      (fit_centered 300 600 (quadRect 0)).width /
          (fit_centered 300 600 (quadRect 0)).height = (300 : ℚ) / 600 :=
  ⟨by norm_num, by norm_num, (quadRect_pos (by norm_num)).1,
    (quadRect_pos (by norm_num)).2,
    fit_centered_aspect_ratio 300 600 (quadRect 0) (by norm_num) (by norm_num)
      (quadRect_pos (by norm_num)).1 (quadRect_pos (by norm_num)).2⟩

/-- C6: the fit_centered output rectangle is centered in the target on
both axes: the left gap equals the right gap and the bottom gap equals
the top gap. -/
theorem fit_centered_centering (src_width src_height : ℚ) (target : Rect)
    (hsw : 0 < src_width) (hsh : 0 < src_height)
    (hW : 0 < target.width) (hH : 0 < target.height) :
    (fit_centered src_width src_height target).x0 - target.x0 =
        target.x1 - (fit_centered src_width src_height target).x1 ∧
      (fit_centered src_width src_height target).y0 - target.y0 =
        target.y1 - (fit_centered src_width src_height target).y1 := by
  constructor <;>
    · simp only [fit_centered, Rect.width, Rect.height]
      ring

/-- Witness for C6: the 300 x 600 source page of spec scenario 5. -/
theorem fit_centered_centering_witness :
    (0 : ℚ) < 300 ∧ (0 : ℚ) < 600 ∧
      0 < (quadRect 0).width ∧ 0 < (quadRect 0).height ∧
      ((fit_centered 300 600 (quadRect 0)).x0 - (quadRect 0).x0 =
          (quadRect 0).x1 - (fit_centered 300 600 (quadRect 0)).x1 ∧
        (fit_centered 300 600 (quadRect 0)).y0 - (quadRect 0).y0 =
          (quadRect 0).y1 - (fit_centered 300 600 (quadRect 0)).y1) :=
  ⟨by norm_num, by norm_num, (quadRect_pos (by norm_num)).1,
    (quadRect_pos (by norm_num)).2,
    fit_centered_centering 300 600 (quadRect 0) (by norm_num) (by norm_num)
      (quadRect_pos (by norm_num)).1 (quadRect_pos (by norm_num)).2⟩

/-- C7: the four quadrant target rectangles, in the fixed order
[top-left, top-right, bottom-left, bottom-right], equal exactly the
spec's formulas over (sheet_width, sheet_height, margin), and the
quadrant-index-to-rectangle mapping is the same for every sheet of a
run. -/
theorem quadrant_rects_match_spec :
    quadrant_rects = spec_quadrant_rects A4_WIDTH A4_HEIGHT margin ∧
      ∀ sheet sheet' q : ℕ, target_rect_of sheet q = target_rect_of sheet' q :=
  ⟨rfl, fun _ _ _ => rfl⟩

/-- C9: a referenced source page of non-positive width or height (with
fitz these dimensions are absolute values, hence never negative) makes
the fitting step signal an error which propagates to the caller — the
page is never silently skipped or silently rendered. -/
theorem degenerate_source_page_errors (src_width src_height : ℚ) (target : Rect)
    (h0w : 0 ≤ src_width) (h0h : 0 ≤ src_height)
    (hdeg : src_width ≤ 0 ∨ src_height ≤ 0) :
    render_fit src_width src_height target =
      Except.error RenderError.zeroDivision := by
  have hz : src_width = 0 ∨ src_height = 0 := by
    rcases hdeg with h | h
    · exact Or.inl (le_antisymm h h0w)
    · exact Or.inr (le_antisymm h h0h)
  unfold render_fit
  rw [if_pos hz]

/-- Witness for C9: a zero-width source page aimed at the top-left
quadrant. -/
theorem degenerate_source_page_errors_witness :
    (0 : ℚ) ≤ 0 ∧ (0 : ℚ) ≤ 5 ∧ ((0 : ℚ) ≤ 0 ∨ (5 : ℚ) ≤ 0) ∧
      render_fit 0 5 (quadRect 0) = Except.error RenderError.zeroDivision :=
  ⟨le_refl 0, by norm_num, Or.inl (le_refl 0),
    degenerate_source_page_errors 0 5 (quadRect 0) (le_refl 0) (by norm_num)
      (Or.inl (le_refl 0))⟩

/-- C10: with the fixed configuration (sheet 595 x 842, margin 10) the
quadrant target rectangles have positive width and height and are
pairwise disjoint, and the destination rectangles that fit_centered
produces inside two distinct quadrants of the same sheet never
overlap. -/
theorem quadrants_disjoint (q q' : ℕ) (hq : q < 4) (hq' : q' < 4)
    (hne : q ≠ q') (sw sh sw' sh' : ℚ)
    (h1 : 0 < sw) (h2 : 0 < sh) (h3 : 0 < sw') (h4 : 0 < sh') :
    (0 < (quadRect q).width ∧ 0 < (quadRect q).height) ∧
      (quadRect q).Disjoint (quadRect q') ∧
      (fit_centered sw sh (quadRect q)).Disjoint
        (fit_centered sw' sh' (quadRect q')) := by
  obtain ⟨hw, hh⟩ := quadRect_pos hq
  obtain ⟨hw', hh'⟩ := quadRect_pos hq'
  have hd := quadRect_disjoint hq hq' hne
  exact ⟨⟨hw, hh⟩, hd,
    subRect_disjoint (fit_centered_subRect sw sh _ h1 h2 hw hh)
      (fit_centered_subRect sw' sh' _ h3 h4 hw' hh') hd⟩

/-- Witness for C10: quadrants 0 and 1 with unit source pages. -/
theorem quadrants_disjoint_witness :
    ((0 : ℕ) < 4 ∧ (1 : ℕ) < 4 ∧ (0 : ℕ) ≠ 1 ∧ (0 : ℚ) < 1) ∧
      ((0 < (quadRect 0).width ∧ 0 < (quadRect 0).height) ∧
        (quadRect 0).Disjoint (quadRect 1) ∧
        (fit_centered 1 1 (quadRect 0)).Disjoint
          (fit_centered 1 1 (quadRect 1))) :=
  ⟨⟨by norm_num, by norm_num, by norm_num, by norm_num⟩,
    quadrants_disjoint 0 1 (by norm_num) (by norm_num) (by norm_num)
      1 1 1 1 (by norm_num) (by norm_num) (by norm_num) (by norm_num)⟩

/-! ## Claim theorems: imposition planner -/

/-- C1: for every num_pages >= 1 in single-sided Mode A, the plan has
ceil(num_pages/4) output sheets, and the slot of sheet `s`, quadrant
`q` is bound to source page index `s + q * sheets_total` when that
value is below num_pages and is empty otherwise. -/
theorem modeA_plan_correct (num_pages : ℕ) (hn : 1 ≤ num_pages) :
    (planA num_pages).length = ⌈(num_pages : ℚ) / 4⌉₊ ∧
      ∀ sheet q : ℕ, sheet < (planA num_pages).length → q < 4 →
        ((planA num_pages).getD sheet []).getD q none =
          (if sheet + q * (planA num_pages).length < num_pages then
            some (sheet + q * (planA num_pages).length)
          else none) := by
  have hlen : (planA num_pages).length = total_sheets num_pages := by
    simp [planA]
  constructor
  · rw [hlen]
    exact nat_ceil_div_four num_pages
  · intro sheet q hs hq
    rw [hlen] at hs ⊢
    simp only [planA, List.getD_eq_getElem?_getD, List.getElem?_map,
      List.getElem?_range hs, List.getElem?_range hq, Option.map_some',
      Option.getD_some, slotA]

/-- Witness for C1: spec scenario 1, num_pages = 8. -/
theorem modeA_plan_correct_witness :
    1 ≤ 8 ∧
      ((planA 8).length = ⌈(8 : ℚ) / 4⌉₊ ∧
        ∀ sheet q : ℕ, sheet < (planA 8).length → q < 4 →
          ((planA 8).getD sheet []).getD q none =
            (if sheet + q * (planA 8).length < 8 then
              some (sheet + q * (planA 8).length)
            else none)) :=
  ⟨by norm_num, modeA_plan_correct 8 (by norm_num)⟩

/-- Counterexample for C2: in the spec-modelled double-sided Mode B
with num_pages = 101, source index 25 (one-based mini-page 26) is
bound in two distinct slots — sheet 0, front, quadrant 1 and sheet 12,
back, quadrant 0 — so ''exactly one slot per source index'' fails for
that supported mode. -/
theorem modeB_duplicate_binding :
    ¬ ∃! p : ℕ × Side × ℕ,
        p.1 < sheets_totalB 101 ∧ p.2.2 < 4 ∧
          slot Mode.modeB 101 p.1 p.2.1 p.2.2 = some 25 := by
  rintro ⟨p, hp, huniq⟩
  have h1 : ((0 : ℕ), (Side.front, (1 : ℕ))) = p := huniq _ (by decide)
  have h2 : ((12 : ℕ), (Side.back, (0 : ℕ))) = p := huniq _ (by decide)
  rw [← h1] at h2
  exact absurd h2 (by decide)

/-- C2 as amended: in Mode A — the mode implemented in `src/app.py` —
every source page index below num_pages is bound in exactly one
(sheet, side, quadrant) slot of the whole plan. -/
theorem modeA_exactly_one_slot (num_pages i : ℕ) (hi : i < num_pages) :
    ∃! p : ℕ × Side × ℕ,
        p.1 < total_sheets num_pages ∧ p.2.2 < 4 ∧
          slot Mode.modeA num_pages p.1 p.2.1 p.2.2 = some i := by
  have hS : 0 < total_sheets num_pages := by unfold total_sheets; omega
  have hn4 : num_pages ≤ 4 * total_sheets num_pages := by
    unfold total_sheets; omega
  refine ⟨(i % total_sheets num_pages, Side.front, i / total_sheets num_pages),
    ⟨Nat.mod_lt _ hS, ?_, ?_⟩, ?_⟩
  · exact (Nat.div_lt_iff_lt_mul hS).mpr (by omega)
  · show slotA num_pages (i % total_sheets num_pages)
      (i / total_sheets num_pages) = some i
    unfold slotA
    rw [Nat.mod_add_div' i (total_sheets num_pages), if_pos hi]
  · rintro ⟨s, side, q⟩ ⟨hs, hq, hslot⟩
    cases side with
    | back => exact absurd hslot (by simp [slot])
    | front =>
      simp only [slot, slotA] at hslot
      by_cases hcond : s + q * total_sheets num_pages < num_pages
      · rw [if_pos hcond] at hslot
        have heq : s + q * total_sheets num_pages = i :=
          Option.some.inj hslot
        have h1 : i % total_sheets num_pages = s := by
          rw [← heq, Nat.add_mul_mod_self_right, Nat.mod_eq_of_lt hs]
        have h2 : i / total_sheets num_pages = q := by
          rw [← heq, Nat.add_mul_div_right s q hS, Nat.div_eq_of_lt hs,
            Nat.zero_add]
        rw [h1, h2]
      · rw [if_neg hcond] at hslot
        exact absurd hslot (by simp)

/-- Witness for C2 (amended): num_pages = 8, source index 3. -/
theorem modeA_exactly_one_slot_witness :
    3 < 8 ∧
      ∃! p : ℕ × Side × ℕ,
          p.1 < total_sheets 8 ∧ p.2.2 < 4 ∧
            slot Mode.modeA 8 p.1 p.2.1 p.2.2 = some 3 :=
  ⟨by norm_num, modeA_exactly_one_slot 8 3 (by norm_num)⟩

/-- C3: three layout modes are selectable; in the double-sided
cut-and-stack Mode B (modelled from the spec), sheets_total is the
ceiling of round_up_even(num_pages)/8, gap = 2*sheets_total - 1, and
sheet j's front quadrant q holds one-based mini-page number
(2*j + 1) + q*gap, the slot left empty when that number exceeds
num_pages; with num_pages = 101 this gives sheets_total = 13,
gap = 25, and sheet 0 front mini-numbers [1, 26, 51, 76]. -/
theorem modeB_plan (num_pages : ℕ) (hn : 1 ≤ num_pages) :
    (∀ m : Mode, m = Mode.modeA ∨ m = Mode.modeB ∨ m = Mode.modeC) ∧
      (effective_pages num_pages % 2 = 0 ∧
        num_pages ≤ effective_pages num_pages ∧
        effective_pages num_pages ≤ num_pages + 1) ∧
      sheets_totalB num_pages = ⌈(effective_pages num_pages : ℚ) / 8⌉₊ ∧
      gapB num_pages = 2 * sheets_totalB num_pages - 1 ∧
      (∀ j q : ℕ,
        slot Mode.modeB num_pages j Side.front q =
          if 2 * j + 1 + q * (2 * sheets_totalB num_pages - 1) ≤ num_pages then
            some (2 * j + 1 + q * (2 * sheets_totalB num_pages - 1) - 1)
          else none) ∧
      sheets_totalB 101 = 13 ∧ gapB 101 = 25 ∧
      ((List.range 4).map fun q => slot Mode.modeB 101 0 Side.front q) =
        [some 0, some 25, some 50, some 75] := by
  refine ⟨?_, ?_, ?_, rfl, ?_, by decide, by decide, by decide⟩
  · intro m
    cases m
    · exact Or.inl rfl
    · exact Or.inr (Or.inl rfl)
    · exact Or.inr (Or.inr rfl)
  · unfold effective_pages
    split <;> omega
  · exact nat_ceil_div_eight (effective_pages num_pages)
  · intro j q
    simp only [slot, slotB, gapB]

/-- Witness for C3: spec scenario 2, num_pages = 101. -/
theorem modeB_plan_witness :
    1 ≤ 101 ∧
      ((∀ m : Mode, m = Mode.modeA ∨ m = Mode.modeB ∨ m = Mode.modeC) ∧
        (effective_pages 101 % 2 = 0 ∧ 101 ≤ effective_pages 101 ∧
          effective_pages 101 ≤ 101 + 1) ∧
        sheets_totalB 101 = ⌈(effective_pages 101 : ℚ) / 8⌉₊ ∧
        gapB 101 = 2 * sheets_totalB 101 - 1 ∧
        (∀ j q : ℕ,
          slot Mode.modeB 101 j Side.front q =
            if 2 * j + 1 + q * (2 * sheets_totalB 101 - 1) ≤ 101 then
              some (2 * j + 1 + q * (2 * sheets_totalB 101 - 1) - 1)
            else none) ∧
        sheets_totalB 101 = 13 ∧ gapB 101 = 25 ∧
        ((List.range 4).map fun q => slot Mode.modeB 101 0 Side.front q) =
          [some 0, some 25, some 50, some 75]) :=
  ⟨by norm_num, modeB_plan 101 (by norm_num)⟩

/-- Counterexample for C8: with zero pages the source's planning stage
does not fail — it yields a successful empty plan, where the spec's
failure semantics demand an InvalidInput error. -/
theorem zero_pages_not_rejected :
    code_plan 0 = Except.ok [] ∧
      spec_plan 0 = Except.error ErrorKind.invalidInput ∧
      code_plan 0 ≠ spec_plan 0 := by
  refine ⟨rfl, rfl, ?_⟩
  intro h
  rw [show code_plan 0 = Except.ok [] from rfl,
    show spec_plan 0 = Except.error ErrorKind.invalidInput from rfl] at h
  exact Except.noConfusion h

/-- C8 as amended: when num_pages <= 0 the planner produces an empty
plan (no output sheets) and signals no error. -/
theorem zero_pages_empty_plan (num_pages : ℕ) (hn : num_pages ≤ 0) :
    code_plan num_pages = Except.ok [] := by
  have h0 : num_pages = 0 := Nat.le_zero.mp hn
  subst h0
  rfl

/-- Witness for C8 (amended): num_pages = 0. -/
theorem zero_pages_empty_plan_witness :
    (0 : ℕ) ≤ 0 ∧ code_plan 0 = Except.ok [] :=
  ⟨Nat.le_refl 0, zero_pages_empty_plan 0 (Nat.le_refl 0)⟩
